import Mathlib

/-!
Verification of the usage-governed inference gateway
(`supabase/functions/ai-chat/index.ts`) of the customer-support SaaS
repository.

The whole request handler is a straight-line async function; we embed it as a
pure function from an explicit context (authentication outcome, ledger
contents, upstream outcome, storage-failure flags) and a request body to a
result carrying the HTTP response, the list of side effects the handler issues
(the upstream fetch and the database inserts) and the `console.error` log
lines.  Timestamps are integer epoch milliseconds (the code compares ISO
strings, which orders exactly like the underlying instants); JavaScript
numeric slips (`NaN` from reading an unselected column) are modelled by a
small JS-number type where `NaN` serialises to JSON `null`, exactly as
`JSON.stringify` does.
-/

namespace AiChat

/-- A chat message as in the `Message` interface (`index.ts` lines 13-16). -/
structure Message where
  role : String
  content : String
deriving Repr, DecidableEq

/-- The `messages` field of the request body as the dynamic JSON value the
validation at `index.ts` line 79 sees: absent/falsy (`!messages`), present but
not an array (`!Array.isArray(messages)`), or an actual array (possibly
empty). -/
inductive MessagesField where
  | missing : MessagesField
  | notArray : MessagesField
  | array : List Message → MessagesField
deriving Repr, DecidableEq

/-- Request body (`RequestBody` interface, `index.ts` lines 18-22).
`workspaceId = none` means the field was omitted and the default applies. -/
structure ReqBody where
  messages : MessagesField
  conversationId : Option String
  workspaceId : Option String
deriving Repr, DecidableEq

/-- The default workspace id used when the body omits `workspaceId`
(`index.ts` line 76). -/
def defaultWorkspaceId : String := "00000000-0000-0000-0000-000000000001"

/-- A row of the `ai_usage` table (migration `006_ai_usage_tracking.sql`),
restricted to the columns the handler's queries touch.  `created_at` is epoch
milliseconds. -/
structure UsageEvent where
  id : Int
  workspace_id : String
  user_id : String
  token_count : Nat
  created_at : Int
deriving Repr, DecidableEq

/-- The payload of the `ai_usage` insert (`index.ts` lines 194-203). -/
structure AiUsageInsert where
  workspace_id : String
  user_id : String
  conversation_id : Option String
  token_count : Nat
  cost_estimate : ℚ
  model : String
  prompt_tokens : Nat
  completion_tokens : Nat
deriving Repr, DecidableEq

/-- The payload of the `conversation_messages` insert
(`index.ts` lines 212-220). -/
structure ConvMessageInsert where
  conversation_id : String
  role : String
  content : String
  model : String
  tokens_used : Nat
deriving Repr, DecidableEq

/-- Outcome of the `fetch` to the OpenAI chat-completions endpoint
(`index.ts` lines 153-188): either `!openaiResponse.ok` with the provider's
HTTP status and the extracted `error.error?.message` details, or a successful
JSON body giving the assistant message and the token accounting. -/
inductive UpstreamResult where
  | failure : Nat → String → UpstreamResult
  | success : String → Nat → Nat → Nat → UpstreamResult
deriving Repr, DecidableEq

/-- `true` exactly on `UpstreamResult.success`. -/
def UpstreamResult.isOk : UpstreamResult → Bool
  | .failure _ _ => false
  | .success _ _ _ _ => true

/-- Everything outside the request body that the handler's control flow
depends on: the clock, the authentication outcome, the current contents of the
`ai_usage` table, whether each database operation errors, and the upstream
outcome. -/
structure Ctx where
  /-- `Date.now()` in epoch milliseconds. -/
  now : Int
  /-- the instant `new Date(); setDate(1); setHours(0,0,0,0)` computes:
  midnight on the first of the current month (`index.ts` lines 121-123). -/
  startOfMonth : Int
  /-- whether the request carries an `Authorization` header. -/
  hasAuthHeader : Bool
  /-- `some userId` when `auth.getUser` succeeds, `none` on `authError`/no
  user (`index.ts` lines 56-69). -/
  authUser : Option String
  /-- current rows of the `ai_usage` table. -/
  ledger : List UsageEvent
  /-- the rate-limit `select` returns `error` (`rateLimitError` non-null). -/
  rateLimitQueryFails : Bool
  /-- the quota `select` returns `error` (`quotaError` non-null). -/
  quotaQueryFails : Bool
  /-- outcome of the OpenAI call. -/
  upstream : UpstreamResult
  /-- the `ai_usage` insert returns `error` (`usageError` non-null). -/
  usageInsertFails : Bool
  /-- the `conversation_messages` insert returns `error`
  (`messageError` non-null). -/
  messageInsertFails : Bool
deriving Repr, DecidableEq

/-! ### JavaScript numeric model

`retryAfter` (`index.ts` lines 106-111) is computed from
`recentRequests![0].created_at`, but the query at line 93 is
`.select("id")`: the returned row objects carry only an `id` property, so the
`created_at` access yields `undefined`, `new Date(undefined).getTime()` is
`NaN`, every arithmetic step propagates `NaN`, and `JSON.stringify` renders
`NaN` as `null`.  We model a JS number as either `NaN` or a rational. -/

/-- A JavaScript number: `NaN` or an (idealised, exact) numeric value. -/
inductive JSNum where
  | nan : JSNum
  | num : ℚ → JSNum
deriving Repr, DecidableEq

/-- JS subtraction: any operation on `NaN` is `NaN`. -/
def JSNum.sub : JSNum → JSNum → JSNum
  | .num a, .num b => .num (a - b)
  | _, _ => .nan

/-- JS division (never applied at denominator 0 here). -/
def JSNum.div : JSNum → JSNum → JSNum
  | .num a, .num b => .num (a / b)
  | _, _ => .nan

/-- `Math.floor`: `NaN` stays `NaN`. -/
def JSNum.floor : JSNum → JSNum
  | .num a => .num (Int.floor a : ℤ)
  | .nan => .nan

/-- `new Date(x).getTime()`: a present timestamp parses to its epoch
milliseconds; `undefined` gives an Invalid Date whose `getTime()` is `NaN`. -/
def dateGetTime : Option Int → JSNum
  | some t => .num (t : ℚ)
  | none => .nan

/-- `JSON.stringify` of a number: `NaN` (and `Infinity`) serialise as `null`,
modelled as `none`. -/
def jsonNumber : JSNum → Option ℚ
  | .nan => none
  | .num q => some q

/-- A row as returned by a Supabase `select`: the listed columns only.
Reading an unselected column yields `undefined` (`none`). -/
abbrev DbRow := List (String × Int)

/-- Read a property of a selected row; absent columns are `undefined`. -/
def getField (row : DbRow) (k : String) : Option Int :=
  (row.find? (fun p => p.1 == k)).map (fun p => p.2)

/-- `.select("id")`: project each matching `ai_usage` row to its `id` column
only (`index.ts` line 93). -/
def selectId (events : List UsageEvent) : List DbRow :=
  events.map (fun e => [("id", e.id)])

/-! ### Rate-limit and quota reads (`index.ts` lines 89-136) -/

/-- The `ai_usage` rows matching the rate-limit query: this user's events with
`created_at >= now - 1h` (`index.ts` lines 90-95). -/
def windowEvents (ctx : Ctx) (userId : String) : List UsageEvent :=
  ctx.ledger.filter (fun e =>
    e.user_id == userId && decide (ctx.now - 3600000 ≤ e.created_at))

/-- `recentRequests`: the id-projected rows, or `none` when the query errors
(`rateLimitError`). -/
def recentRequests (ctx : Ctx) (userId : String) : Option (List DbRow) :=
  if ctx.rateLimitQueryFails then none else some (selectId (windowEvents ctx userId))

/-- `requestCount = recentRequests?.length || 0` (`index.ts` line 101):
a failed read counts as zero (fail-open). -/
def requestCount (ctx : Ctx) (userId : String) : Nat :=
  match recentRequests ctx userId with
  | none => 0
  | some rows => rows.length

/-- The serialised `retryAfter` value of the 429 rate-limit body
(`index.ts` lines 106-111):
`3600 - Math.floor((Date.now() - new Date(recentRequests![0].created_at).getTime()) / 1000)`.
The rows were selected with `.select("id")`, so `created_at` is `undefined`
and the whole expression is `NaN`, serialised by `JSON.stringify` as `null`
(`none`). -/
def retryAfterJson (ctx : Ctx) (userId : String) : Option ℚ :=
  match (recentRequests ctx userId).getD [] with
  | [] => none
  | r :: _ =>
      jsonNumber ((JSNum.num 3600).sub
        (((JSNum.num (ctx.now : ℚ)).sub (dateGetTime (getField r "created_at"))).div
          (JSNum.num 1000)).floor)

/-- The `ai_usage` rows matching the monthly-quota query: this workspace's
events with `created_at >= startOfMonth` (`index.ts` lines 125-129), projected
to `token_count`; `none` when the query errors. -/
def monthlyUsage (ctx : Ctx) (workspaceId : String) : Option (List Nat) :=
  if ctx.quotaQueryFails then none
  else some ((ctx.ledger.filter (fun e =>
    e.workspace_id == workspaceId && decide (ctx.startOfMonth ≤ e.created_at))).map
      (fun e => e.token_count))

/-- `totalTokens = monthlyUsage?.reduce((sum, row) => sum + (row.token_count || 0), 0) || 0`
(`index.ts` lines 135-136). -/
def totalTokens (ctx : Ctx) (workspaceId : String) : Nat :=
  match monthlyUsage ctx workspaceId with
  | none => 0
  | some rows => rows.foldl (fun s t => s + t) 0

/-- `costEstimate = (tokensUsed / 1000) * 0.002` (`index.ts` line 191), read
in exact (infinitely precise) arithmetic: the ideal value the JavaScript
expression rounds.  The program itself evaluates this formula in IEEE-754
binary64; `costEstimateFP` below is the bit-accurate model of that
evaluation, and the two differ by rounding. -/
def costEstimate (tokensUsed : Nat) : ℚ :=
  ((tokensUsed : ℚ) / 1000) * (2 / 1000)

/-- The Cost Estimator in the spec's signature
`Estimate(model, promptTokens, completionTokens)`, in the same exact-arithmetic
idealisation as `costEstimate`: the handler prices the provider-reported
`total_tokens = prompt_tokens + completion_tokens` at the single blended
gpt-3.5-turbo rate.  See `EstimateFP` for the program's double-precision
evaluation. -/
def Estimate (_model : String) (promptTokens completionTokens : Nat) : ℚ :=
  costEstimate (promptTokens + completionTokens)

/-! #### IEEE-754 binary64 model of the cost computation

JavaScript numbers are binary64 doubles, so `(tokensUsed / 1000) * 0.002`
rounds after the literal, the division and the multiplication.  Every double
is an exactly representable rational, so we model a double as the rational it
denotes and each operation as the exact operation followed by rounding to 53
significant bits (round to nearest, ties to even).  The model covers the
normal range, which comfortably contains every value this estimator
produces; overflow and subnormals are out of reach here. -/

/-- `2 ^ k` as a rational, for an integer exponent. -/
def twoPow (k : ℤ) : ℚ :=
  if 0 ≤ k then ((2 ^ k.toNat : ℕ) : ℚ) else 1 / ((2 ^ (-k).toNat : ℕ) : ℚ)

/-- `⌊log₂ n⌋` by repeated halving, with an explicit structural fuel so that
proofs can evaluate it by reduction (`Nat.log2` is well-founded-recursive and
does not reduce). -/
def log2fuel : Nat → Nat → Nat
  | 0, _ => 0
  | fuel + 1, n => if n ≤ 1 then 0 else log2fuel fuel (n / 2) + 1

/-- `⌊log₂ n⌋` for `n ≥ 1`: `n` itself is always enough fuel, since the
argument halves at every step. -/
def natLog2 (n : Nat) : Nat := log2fuel n n

/-- `⌊log₂ q⌋` for a positive rational: guess from the bit lengths of
numerator and denominator, then adjust so that `2 ^ e ≤ q < 2 ^ (e + 1)`. -/
def floorLog2 (q : ℚ) : ℤ :=
  let g : ℤ := (natLog2 q.num.toNat : ℤ) - (natLog2 q.den : ℤ)
  if twoPow (g + 1) ≤ q then g + 1
  else if q < twoPow g then g - 1
  else g

/-- Round a rational to the nearest IEEE-754 binary64 value (round to
nearest, ties to even): scale the significand into `[2^52, 2^53)`, round it
to an integer, and scale back. -/
def roundDouble (q : ℚ) : ℚ :=
  if q = 0 then 0
  else
    let s : ℚ := if q < 0 then -1 else 1
    let a : ℚ := if q < 0 then -q else q
    let e := floorLog2 a
    let m := a * twoPow (52 - e)
    let n := m.floor
    let fr := m - (n : ℚ)
    let r := if fr < 1 / 2 then n
             else if 1 / 2 < fr then n + 1
             else if n % 2 = 0 then n else n + 1
    s * ((r : ℚ) * twoPow (e - 52))

/-- Double addition: exact sum, then one rounding. -/
def fpAdd (a b : ℚ) : ℚ := roundDouble (a + b)

/-- Double multiplication: exact product, then one rounding. -/
def fpMul (a b : ℚ) : ℚ := roundDouble (a * b)

/-- Double division: exact quotient, then one rounding. -/
def fpDiv (a b : ℚ) : ℚ := roundDouble (a / b)

/-- The double denoted by the source literal `0.002`. -/
def fp002 : ℚ := roundDouble (2 / 1000)

/-- `(tokensUsed / 1000) * 0.002` (`index.ts` line 191) as the program
actually computes it, in binary64: round the integer into a double, divide by
`1000` (itself exact) with rounding, multiply by the rounded literal `0.002`
with rounding. -/
def costEstimateFP (tokensUsed : Nat) : ℚ :=
  fpMul (fpDiv (roundDouble (tokensUsed : ℚ)) (roundDouble 1000)) fp002

/-- The Cost Estimator under the program's binary64 evaluation. -/
def EstimateFP (_model : String) (promptTokens completionTokens : Nat) : ℚ :=
  costEstimateFP (promptTokens + completionTokens)

/-! ### Responses and effects -/

/-- The JSON body shapes the handler can answer with. -/
inductive RespBody where
  /-- `{ error }` — the 401s and the 400. -/
  | errorOnly : String → RespBody
  /-- `{ error, retryAfter }` — 429 rate limited; `none` is JSON `null`. -/
  | rateLimited : String → Option ℚ → RespBody
  /-- `{ error, usage: { current, limit } }` — 429 quota exceeded. -/
  | quotaExceeded : String → Nat → Nat → RespBody
  /-- `{ error, details }` — upstream failure passthrough. -/
  | upstreamError : String → String → RespBody
  /-- `{ message, usage: { tokens, cost, monthlyTotal, monthlyLimit } }`. -/
  | success : String → Nat → ℚ → Nat → Nat → RespBody
deriving Repr, DecidableEq

/-- An HTTP response: status code and JSON body. -/
structure Response where
  status : Nat
  body : RespBody
deriving Repr, DecidableEq

/-- The externally observable operations the handler issues, in program
order: the upstream fetch, the `ai_usage` insert, the
`conversation_messages` insert. -/
inductive Effect where
  | upstreamCall : List Message → Effect
  | insertUsage : AiUsageInsert → Effect
  | insertMessage : ConvMessageInsert → Effect
deriving Repr, DecidableEq

/-- Handler outcome: the HTTP response, the issued effects, the
`console.error` lines. -/
structure HandlerResult where
  response : Response
  effects : List Effect
  logs : List String
deriving Repr, DecidableEq

/-- `!messages || !Array.isArray(messages)` (`index.ts` line 79): absent or
non-array fails validation; any array — including the empty one, which is
truthy and an array — passes. -/
def messagesInvalid : MessagesField → Bool
  | .missing => true
  | .notArray => true
  | .array _ => false

/-- The message list forwarded to the provider once validation passed. -/
def messagesList : MessagesField → List Message
  | .array ms => ms
  | _ => []

/-- Stage 4-6 of the handler (`index.ts` lines 152-242): call OpenAI, and on
success log usage, optionally store the assistant message, and answer 200.
`tokens` is the monthly total computed by the quota stage. -/
def invokeStage (ctx : Ctx) (body : ReqBody) (userId workspaceId : String)
    (tokens : Nat) (logs : List String) : HandlerResult :=
  let ms := messagesList body.messages
  match ctx.upstream with
  | .failure st details =>
      { response := ⟨st, .upstreamError "OpenAI API error" details⟩
        effects := [.upstreamCall ms]
        logs := logs ++ ["OpenAI API error:"] }
  | .success content promptToks completionToks totalToks =>
      let cost := costEstimate totalToks
      let usageRow : AiUsageInsert :=
        { workspace_id := workspaceId
          user_id := userId
          conversation_id := body.conversationId
          token_count := totalToks
          cost_estimate := cost
          model := "gpt-3.5-turbo"
          prompt_tokens := promptToks
          completion_tokens := completionToks }
      let usageLogs := if ctx.usageInsertFails then ["Failed to log usage:"] else []
      let msgEffects :=
        match body.conversationId with
        | some cid =>
            [Effect.insertMessage
              { conversation_id := cid
                role := "assistant"
                content := content
                model := "gpt-3.5-turbo"
                tokens_used := totalToks }]
        | none => []
      let msgLogs :=
        match body.conversationId with
        | some _ => if ctx.messageInsertFails then ["Failed to save message:"] else []
        | none => []
      { response := ⟨200, .success content totalToks cost (tokens + totalToks) 1000000⟩
        effects := [.upstreamCall ms, .insertUsage usageRow] ++ msgEffects
        logs := logs ++ usageLogs ++ msgLogs }

/-- Stage 3 (`index.ts` lines 120-150): monthly workspace quota. -/
def quotaStage (ctx : Ctx) (body : ReqBody) (userId : String)
    (logs : List String) : HandlerResult :=
  let qLogs := if ctx.quotaQueryFails then ["Quota check error:"] else []
  let workspaceId := body.workspaceId.getD defaultWorkspaceId
  let tokens := totalTokens ctx workspaceId
  if 1000000 < tokens then
    { response := ⟨429, .quotaExceeded "Monthly AI quota exceeded (1M tokens)" tokens 1000000⟩
      effects := []
      logs := logs ++ qLogs }
  else invokeStage ctx body userId workspaceId tokens (logs ++ qLogs)

/-- Stage 2 (`index.ts` lines 89-118): per-user hourly rate limit. -/
def rateStage (ctx : Ctx) (body : ReqBody) (userId : String) : HandlerResult :=
  let rlLogs := if ctx.rateLimitQueryFails then ["Rate limit check error:"] else []
  if 20 ≤ requestCount ctx userId then
    { response := ⟨429,
        .rateLimited "Rate limit exceeded. Maximum 20 requests per hour."
          (retryAfterJson ctx userId)⟩
      effects := []
      logs := rlLogs }
  else quotaStage ctx body userId rlLogs

/-- The whole request handler (`index.ts` lines 24-256): authenticate,
validate the body, rate-check, quota-check, invoke upstream, record, respond. -/
def handle (ctx : Ctx) (body : ReqBody) : HandlerResult :=
  if ctx.hasAuthHeader = false then
    { response := ⟨401, .errorOnly "Missing authorization header"⟩
      effects := [], logs := [] }
  else
    match ctx.authUser with
    | none =>
        { response := ⟨401, .errorOnly "Invalid authorization token"⟩
          effects := [], logs := [] }
    | some userId =>
        if messagesInvalid body.messages then
          { response := ⟨400, .errorOnly "Invalid messages format"⟩
            effects := [], logs := [] }
        else rateStage ctx body userId

/-! ### Observation helpers for the theorems -/

/-- `true` iff the effect is the upstream fetch. -/
def Effect.isUpstreamCall : Effect → Bool
  | .upstreamCall _ => true
  | _ => false

/-- `true` iff the effect is an `ai_usage` insert. -/
def Effect.isInsertUsage : Effect → Bool
  | .insertUsage _ => true
  | _ => false

/-- `true` iff the effect is a `conversation_messages` insert. -/
def Effect.isInsertMessage : Effect → Bool
  | .insertMessage _ => true
  | _ => false

/-- Whether the handler invoked the upstream provider at all. -/
def upstreamInvoked (r : HandlerResult) : Bool :=
  r.effects.any Effect.isUpstreamCall

/-- How many `ai_usage` rows the handler appends to the ledger. -/
def usageInsertCount (r : HandlerResult) : Nat :=
  (r.effects.filter Effect.isInsertUsage).length

/-- The `conversation_messages` rows the handler inserts. -/
def messageInserts (r : HandlerResult) : List ConvMessageInsert :=
  r.effects.filterMap (fun e =>
    match e with
    | .insertMessage m => some m
    | _ => none)

/-- `true` iff the response is the 429 rate-limit rejection. -/
def isRateLimitedResp (r : HandlerResult) : Bool :=
  match r.response.body with
  | .rateLimited _ _ => r.response.status == 429
  | _ => false

/-- `true` iff the response is the 429 quota rejection. -/
def isQuotaExceededResp (r : HandlerResult) : Bool :=
  match r.response.body with
  | .quotaExceeded _ _ _ => r.response.status == 429
  | _ => false

/-! ### Concrete scenarios -/

/-- A one-message chat request. -/
def sampleMessages : List Message := [⟨"user", "hello"⟩]

/-- Plain request: valid messages, no conversation, default workspace. -/
def body0 : ReqBody := ⟨.array sampleMessages, none, none⟩

/-- Request that carries a `conversationId`. -/
def bodyConv : ReqBody := ⟨.array sampleMessages, some "conv1", none⟩

/-- Request whose `messages` is the empty array `[]`. -/
def bodyEmpty : ReqBody := ⟨.array [], none, none⟩

/-- Request with no `messages` field at all. -/
def bodyMissing : ReqBody := ⟨.missing, none, none⟩

/-- Healthy context: authenticated user `"u"`, empty ledger, upstream
succeeds with 10 prompt + 20 completion = 30 total tokens. -/
def baseCtx : Ctx :=
  { now := 7200000
    startOfMonth := 0
    hasAuthHeader := true
    authUser := some "u"
    ledger := []
    rateLimitQueryFails := false
    quotaQueryFails := false
    upstream := .success "hi" 10 20 30
    usageInsertFails := false
    messageInsertFails := false }

/-- Ledger holding exactly the monthly token limit for the default
workspace (recorded by another user, so the rate window is empty). -/
def ctxBoundary : Ctx :=
  { baseCtx with ledger := [⟨1, defaultWorkspaceId, "v", 1000000, 5000⟩] }

/-- Ledger strictly over the monthly token limit. -/
def ctxOver : Ctx :=
  { baseCtx with ledger := [⟨1, defaultWorkspaceId, "v", 1000001, 5000⟩] }

/-- Twenty `ai_usage` rows for user `"u"`, all inside the trailing hour
(`created_at = 4000000 ≥ now - 3600000`). -/
def rateLedger : List UsageEvent :=
  (List.range 20).map (fun i => UsageEvent.mk i defaultWorkspaceId "u" 100 4000000)

/-- Context in which user `"u"` already has 20 requests in the window. -/
def ctxRate : Ctx := { baseCtx with ledger := rateLedger }

/-- Healthy context whose `ai_usage` insert errors. -/
def ctxUsageFail : Ctx := { baseCtx with usageInsertFails := true }

/-- Healthy context whose `conversation_messages` insert errors. -/
def ctxMsgFail : Ctx := { baseCtx with messageInsertFails := true }

/-- Context whose upstream call fails with the provider's own 429. -/
def ctxUp429 : Ctx :=
  { baseCtx with upstream := .failure 429 "Rate limit reached for requests" }

/-! ### Claim theorems -/

/-- C1: a rejected (rate-limited or quota-blocked) or failed (unauthenticated,
malformed, or upstream-error) request appends no `ai_usage` row, and a request
whose upstream call is invoked and completes successfully appends exactly one
— never zero, never more than one. -/
theorem C1_exactly_one_usage_insert (ctx : Ctx) (body : ReqBody) :
    usageInsertCount (handle ctx body) =
      if upstreamInvoked (handle ctx body) && ctx.upstream.isOk then 1 else 0 := by
  by_cases hh : ctx.hasAuthHeader = false
  · simp [handle, hh, usageInsertCount, upstreamInvoked]
  · cases hau : ctx.authUser with
    | none => simp [handle, hh, hau, usageInsertCount, upstreamInvoked]
    | some u =>
      by_cases hm : messagesInvalid body.messages
      · simp [handle, hh, hau, hm, usageInsertCount, upstreamInvoked]
      · by_cases hrl : 20 ≤ requestCount ctx u
        · simp [handle, rateStage, hh, hau, hm, hrl, usageInsertCount, upstreamInvoked]
        · by_cases hq : 1000000 < totalTokens ctx (body.workspaceId.getD defaultWorkspaceId)
          · simp [handle, rateStage, quotaStage, hh, hau, hm, hrl, hq,
              usageInsertCount, upstreamInvoked]
          · cases hup : ctx.upstream with
            | failure st details =>
                simp [handle, rateStage, quotaStage, invokeStage, hh, hau, hm, hrl, hq,
                  hup, usageInsertCount, upstreamInvoked, UpstreamResult.isOk,
                  Effect.isUpstreamCall, Effect.isInsertUsage]
            | success content p c t =>
                cases hc : body.conversationId <;>
                  simp [handle, rateStage, quotaStage, invokeStage, hh, hau, hm, hrl, hq,
                    hup, hc, usageInsertCount, upstreamInvoked, UpstreamResult.isOk,
                    Effect.isUpstreamCall, Effect.isInsertUsage]

/-- C2 counterexample: with the monthly sum for the default workspace exactly
at the 1,000,000-token limit, the next call is NOT rejected — it returns 200,
because the code only rejects at `totalTokens > 1000000`. -/
theorem C2_counterexample :
    totalTokens ctxBoundary defaultWorkspaceId = 1000000 ∧
    (handle ctxBoundary body0).response.status = 200 := by decide

/-- C2 (amended): once the monthly token sum is strictly over `tokens_limit`
(1,000,000), the next chat-completion call for that tenant is rejected with
QuotaExceeded: HTTP 429, body carrying the current usage and the limit. -/
theorem C2_amended_quota_reject (ctx : Ctx) (body : ReqBody) (u : String)
    (hh : ctx.hasAuthHeader = true) (hau : ctx.authUser = some u)
    (hm : messagesInvalid body.messages = false)
    (hrl : requestCount ctx u < 20)
    (hq : 1000000 < totalTokens ctx (body.workspaceId.getD defaultWorkspaceId)) :
    (handle ctx body).response =
      ⟨429, .quotaExceeded "Monthly AI quota exceeded (1M tokens)"
        (totalTokens ctx (body.workspaceId.getD defaultWorkspaceId)) 1000000⟩ := by
  have hrl2 : ¬ (20 ≤ requestCount ctx u) := by omega
  simp [handle, rateStage, quotaStage, hh, hau, hm, hrl2, hq]

/-- C2 witness: a tenant at 1,000,001 tokens this month is rejected with the
quota body. -/
theorem C2_amended_quota_reject_witness :
    1000000 < totalTokens ctxOver (body0.workspaceId.getD defaultWorkspaceId) ∧
    (handle ctxOver body0).response =
      ⟨429, .quotaExceeded "Monthly AI quota exceeded (1M tokens)"
        (totalTokens ctxOver (body0.workspaceId.getD defaultWorkspaceId)) 1000000⟩ :=
  ⟨by decide,
    C2_amended_quota_reject ctxOver body0 "u" (by decide) (by decide) (by decide)
      (by decide) (by decide)⟩

/-- C3: past authentication, validation and the rate limiter, the quota check
lets the request through to the upstream call iff the tenant's monthly token
sum is at most the 1,000,000 limit — a sum exactly at the limit still
proceeds — and emits the 429 QuotaExceeded rejection iff the sum is strictly
over the limit. -/
theorem C3_quota_boundary (ctx : Ctx) (body : ReqBody) (u : String)
    (hh : ctx.hasAuthHeader = true) (hau : ctx.authUser = some u)
    (hm : messagesInvalid body.messages = false)
    (hrl : requestCount ctx u < 20) :
    (upstreamInvoked (handle ctx body) = true ↔
      totalTokens ctx (body.workspaceId.getD defaultWorkspaceId) ≤ 1000000) ∧
    (isQuotaExceededResp (handle ctx body) = true ↔
      1000000 < totalTokens ctx (body.workspaceId.getD defaultWorkspaceId)) := by
  have hrl2 : ¬ (20 ≤ requestCount ctx u) := by omega
  by_cases hq : 1000000 < totalTokens ctx (body.workspaceId.getD defaultWorkspaceId)
  · constructor
    · simp [handle, rateStage, quotaStage, hh, hau, hm, hrl2, hq,
        upstreamInvoked]
      try omega
    · simp [handle, rateStage, quotaStage, hh, hau, hm, hrl2, hq,
        isQuotaExceededResp]
  · constructor
    · cases hup : ctx.upstream <;>
        simp [handle, rateStage, quotaStage, invokeStage, hh, hau, hm, hrl2, hq, hup,
          upstreamInvoked, Effect.isUpstreamCall] <;> omega
    · cases hup : ctx.upstream <;>
        simp [handle, rateStage, quotaStage, invokeStage, hh, hau, hm, hrl2, hq, hup,
          isQuotaExceededResp]

/-- C3 witness: at a monthly sum of exactly 1,000,000 the call still reaches
the upstream provider. -/
theorem C3_quota_boundary_witness :
    totalTokens ctxBoundary (body0.workspaceId.getD defaultWorkspaceId) = 1000000 ∧
    upstreamInvoked (handle ctxBoundary body0) = true :=
  ⟨by decide,
    (C3_quota_boundary ctxBoundary body0 "u" (by decide) (by decide) (by decide)
      (by decide)).1.mpr (by decide)⟩

/-- C4: past authentication and validation, and with the ledger read
succeeding, the rate limiter admits the request iff the user has strictly
fewer than 20 usage events with `created_at` in the trailing 60 minutes;
at 20 or more, the response is the 429 RateLimited rejection. -/
theorem C4_rate_limit_boundary (ctx : Ctx) (body : ReqBody) (u : String)
    (hh : ctx.hasAuthHeader = true) (hau : ctx.authUser = some u)
    (hm : messagesInvalid body.messages = false)
    (hrf : ctx.rateLimitQueryFails = false) :
    isRateLimitedResp (handle ctx body) = false ↔ (windowEvents ctx u).length < 20 := by
  have hcount : requestCount ctx u = (windowEvents ctx u).length := by
    simp [requestCount, recentRequests, hrf, selectId]
  by_cases hrl : 20 ≤ requestCount ctx u
  · simp [handle, rateStage, hh, hau, hm, hrl, isRateLimitedResp]
    omega
  · have hrl2 : ¬ (20 ≤ requestCount ctx u) := hrl
    by_cases hq : 1000000 < totalTokens ctx (body.workspaceId.getD defaultWorkspaceId)
    · simp [handle, rateStage, quotaStage, hh, hau, hm, hrl2, hq, isRateLimitedResp]
      omega
    · cases hup : ctx.upstream <;>
        simp [handle, rateStage, quotaStage, invokeStage, hh, hau, hm, hrl2, hq, hup,
          isRateLimitedResp] <;> omega

/-- C4 witness: a user with exactly 20 events inside the window is rejected
with RateLimited on the next call. -/
theorem C4_rate_limit_boundary_witness :
    (windowEvents ctxRate "u").length = 20 ∧
    isRateLimitedResp (handle ctxRate body0) = true := by
  refine ⟨by decide, ?_⟩
  have h := C4_rate_limit_boundary ctxRate body0 "u" (by decide) (by decide)
    (by decide) (by decide)
  cases hb : isRateLimitedResp (handle ctxRate body0)
  · exact absurd (h.mp hb) (by decide)
  · rfl

/-- C5 (code bug, evaluated at the failing input): a user with 20 usage
events in the trailing hour gets the 429 RateLimited response, but its
`retryAfter` field is JSON `null`, not a number — the rows were fetched with
`.select("id")`, so `recentRequests[0].created_at` is `undefined`,
`new Date(undefined).getTime()` is `NaN`, the arithmetic stays `NaN`, and
`JSON.stringify` serialises `NaN` as `null`. -/
theorem C5_retryAfter_is_null :
    (handle ctxRate body0).response =
      ⟨429, .rateLimited "Rate limit exceeded. Maximum 20 requests per hour." none⟩ := by
  decide

/-- C6 counterexample: a request whose `messages` is the empty array `[]`
passes the `!messages || !Array.isArray(messages)` validation (an empty array
is truthy and is an array), so the gateway does NOT return 400 — it proceeds
and invokes the upstream provider. -/
theorem C6_counterexample :
    messagesInvalid bodyEmpty.messages = false ∧
    (handle baseCtx bodyEmpty).response.status = 200 ∧
    upstreamInvoked (handle baseCtx bodyEmpty) = true := by decide

/-- C6 (amended): for every authenticated request whose `messages` field is
missing or not an array, the gateway returns 400 with the malformed-request
error and issues no effect at all — no upstream call and no UsageEvent. -/
theorem C6_amended_malformed_reject (ctx : Ctx) (body : ReqBody) (u : String)
    (hh : ctx.hasAuthHeader = true) (hau : ctx.authUser = some u)
    (hm : messagesInvalid body.messages = true) :
    (handle ctx body).response = ⟨400, .errorOnly "Invalid messages format"⟩ ∧
    (handle ctx body).effects = [] := by
  simp [handle, hh, hau, hm]

/-- C6 witness: a body with no `messages` field is rejected with 400 and no
effects. -/
theorem C6_amended_malformed_reject_witness :
    messagesInvalid bodyMissing.messages = true ∧
    (handle baseCtx bodyMissing).response = ⟨400, .errorOnly "Invalid messages format"⟩ ∧
    (handle baseCtx bodyMissing).effects = [] := by
  refine ⟨by decide, ?_, ?_⟩
  · exact (C6_amended_malformed_reject baseCtx bodyMissing "u" (by decide) (by decide)
      (by decide)).1
  · exact (C6_amended_malformed_reject baseCtx bodyMissing "u" (by decide) (by decide)
      (by decide)).2

/-- C7: when the upstream call succeeds but the `ai_usage` insert fails, the
caller still receives the 200 response with the generated message and the
usage snapshot — exactly the response of a successful write — and the failure
is only logged, never surfaced. -/
theorem C7_ledger_write_failure_swallowed (ctx : Ctx) (body : ReqBody)
    (u content : String) (p c t : Nat)
    (hh : ctx.hasAuthHeader = true) (hau : ctx.authUser = some u)
    (hm : messagesInvalid body.messages = false)
    (hrl : requestCount ctx u < 20)
    (hq : totalTokens ctx (body.workspaceId.getD defaultWorkspaceId) ≤ 1000000)
    (hs : ctx.upstream = .success content p c t)
    (hfail : ctx.usageInsertFails = true) :
    (handle ctx body).response =
      ⟨200, .success content t (costEstimate t)
        (totalTokens ctx (body.workspaceId.getD defaultWorkspaceId) + t) 1000000⟩ ∧
    "Failed to log usage:" ∈ (handle ctx body).logs := by
  have hrl2 : ¬ (20 ≤ requestCount ctx u) := by omega
  have hq2 : ¬ (1000000 < totalTokens ctx (body.workspaceId.getD defaultWorkspaceId)) := by
    omega
  cases hc : body.conversationId <;>
    simp [handle, rateStage, quotaStage, invokeStage, hh, hau, hm, hrl2, hq2, hs, hc, hfail]

/-- C7 witness: concrete run with a failing ledger write still answers 200
with the success body and logs the failure. -/
theorem C7_ledger_write_failure_swallowed_witness :
    (handle ctxUsageFail body0).response =
      ⟨200, .success "hi" 30 (costEstimate 30)
        (totalTokens ctxUsageFail (body0.workspaceId.getD defaultWorkspaceId) + 30) 1000000⟩ ∧
    "Failed to log usage:" ∈ (handle ctxUsageFail body0).logs :=
  C7_ledger_write_failure_swallowed ctxUsageFail body0 "u" "hi" 10 20 30
    (by decide) (by decide) (by decide) (by decide) (by decide) (by decide) (by decide)

/-- C8 counterexample: when the provider fails with its own 429, the gateway
relays status 429 — not a 5xx status — because the code propagates
`openaiResponse.status` unchanged. -/
theorem C8_counterexample :
    (handle ctxUp429 body0).response.status = 429 ∧
    (handle ctxUp429 body0).response.status < 500 := by decide

/-- C8 (amended): for every upstream provider failure, the gateway responds
with the provider's own HTTP status and a body of shape
`{ error: "OpenAI API error", details }` — a distinct body shape from the
gateway's own RateLimited/QuotaExceeded rejections — and writes no
UsageEvent. -/
theorem C8_amended_upstream_error (ctx : Ctx) (body : ReqBody) (u : String)
    (st : Nat) (details : String)
    (hh : ctx.hasAuthHeader = true) (hau : ctx.authUser = some u)
    (hm : messagesInvalid body.messages = false)
    (hrl : requestCount ctx u < 20)
    (hq : totalTokens ctx (body.workspaceId.getD defaultWorkspaceId) ≤ 1000000)
    (hs : ctx.upstream = .failure st details) :
    (handle ctx body).response = ⟨st, .upstreamError "OpenAI API error" details⟩ ∧
    isRateLimitedResp (handle ctx body) = false ∧
    isQuotaExceededResp (handle ctx body) = false ∧
    usageInsertCount (handle ctx body) = 0 := by
  have hrl2 : ¬ (20 ≤ requestCount ctx u) := by omega
  have hq2 : ¬ (1000000 < totalTokens ctx (body.workspaceId.getD defaultWorkspaceId)) := by
    omega
  simp [handle, rateStage, quotaStage, invokeStage, hh, hau, hm, hrl2, hq2, hs,
    isRateLimitedResp, isQuotaExceededResp, usageInsertCount, Effect.isInsertUsage]

/-- C8 witness: the provider 429 is relayed as 429 with the
`{ error, details }` body and no UsageEvent. -/
theorem C8_amended_upstream_error_witness :
    (handle ctxUp429 body0).response =
      ⟨429, .upstreamError "OpenAI API error" "Rate limit reached for requests"⟩ ∧
    isRateLimitedResp (handle ctxUp429 body0) = false ∧
    isQuotaExceededResp (handle ctxUp429 body0) = false ∧
    usageInsertCount (handle ctxUp429 body0) = 0 :=
  C8_amended_upstream_error ctxUp429 body0 "u" 429 "Rate limit reached for requests"
    (by decide) (by decide) (by decide) (by decide) (by decide) (by decide)

set_option maxRecDepth 100000 in
/-- C9 counterexample: the program evaluates
`(tokensUsed / 1000) * 0.002` in IEEE-754 binary64, and there the claimed
exact additivity fails: at token totals 1 and 29 (e.g. prompt/completion
splits (1,0), (29,0) combining to (30,0)),
`Estimate(m,1,0) + Estimate(m,29,0)` is `6.000000000000001e-05` while
`Estimate(m,30,0)` is `6e-05` — unequal whether the outer sum is taken as a
double addition or exactly. -/
theorem C9_counterexample :
    ¬ (fpAdd (EstimateFP "gpt-3.5-turbo" 1 0) (EstimateFP "gpt-3.5-turbo" 29 0) =
        EstimateFP "gpt-3.5-turbo" (1 + 29) (0 + 0)) ∧
    ¬ (EstimateFP "gpt-3.5-turbo" 1 0 + EstimateFP "gpt-3.5-turbo" 29 0 =
        EstimateFP "gpt-3.5-turbo" (1 + 29) (0 + 0)) :=
  ⟨of_decide_eq_false (by with_unfolding_all rfl),
   of_decide_eq_false (by with_unfolding_all rfl)⟩

/-- C9 (amended): the cost estimate is a pure function of the token counts
(both `EstimateFP` and `Estimate` are Lean functions, hence deterministic and
side-effect free), and the ideal value the program's formula rounds —
`(total / 1000) * 0.002` in exact arithmetic, the single blended
gpt-3.5-turbo rate — is linear:
`Estimate(m, p1, c1) + Estimate(m, p2, c2) = Estimate(m, p1+p2, c1+c2)`.
The program's binary64 evaluation tracks this ideal only up to rounding and
is not exactly additive (see the counterexample at totals 1 and 29). -/
theorem C9_estimate_linear (p1 c1 p2 c2 : Nat) :
    Estimate "gpt-3.5-turbo" p1 c1 + Estimate "gpt-3.5-turbo" p2 c2 =
      Estimate "gpt-3.5-turbo" (p1 + p2) (c1 + c2) := by
  simp only [Estimate, costEstimate]
  push_cast
  ring

/-- C10: on upstream success, supplying a `conversationId` makes the handler
issue exactly one `conversation_messages` insert — role `"assistant"`, the
generated text, model `"gpt-3.5-turbo"`, the tokens used — while omitting it
issues none; the response is 200 regardless, and a failing message insert is
only logged. -/
theorem C10_conversation_message_insert (ctx : Ctx) (body : ReqBody)
    (u content : String) (p c t : Nat)
    (hh : ctx.hasAuthHeader = true) (hau : ctx.authUser = some u)
    (hm : messagesInvalid body.messages = false)
    (hrl : requestCount ctx u < 20)
    (hq : totalTokens ctx (body.workspaceId.getD defaultWorkspaceId) ≤ 1000000)
    (hs : ctx.upstream = .success content p c t) :
    (∀ cid, body.conversationId = some cid →
      messageInserts (handle ctx body) = [⟨cid, "assistant", content, "gpt-3.5-turbo", t⟩]) ∧
    (body.conversationId = none → messageInserts (handle ctx body) = []) ∧
    (handle ctx body).response.status = 200 ∧
    (∀ cid, body.conversationId = some cid → ctx.messageInsertFails = true →
      "Failed to save message:" ∈ (handle ctx body).logs) := by
  have hrl2 : ¬ (20 ≤ requestCount ctx u) := by omega
  have hq2 : ¬ (1000000 < totalTokens ctx (body.workspaceId.getD defaultWorkspaceId)) := by
    omega
  refine ⟨?_, ?_, ?_, ?_⟩
  · intro cid hc
    simp [handle, rateStage, quotaStage, invokeStage, hh, hau, hm, hrl2, hq2, hs, hc,
      messageInserts]
  · intro hc
    simp [handle, rateStage, quotaStage, invokeStage, hh, hau, hm, hrl2, hq2, hs, hc,
      messageInserts]
  · cases hc : body.conversationId <;>
      simp [handle, rateStage, quotaStage, invokeStage, hh, hau, hm, hrl2, hq2, hs, hc]
  · intro cid hc hfail
    simp [handle, rateStage, quotaStage, invokeStage, hh, hau, hm, hrl2, hq2, hs, hc, hfail]

/-- C10 witness: with `conversationId = "conv1"` and a failing message
insert, exactly the expected assistant row is issued, the response is 200,
and the failure is logged. -/
theorem C10_conversation_message_insert_witness :
    messageInserts (handle ctxMsgFail bodyConv) =
      [⟨"conv1", "assistant", "hi", "gpt-3.5-turbo", 30⟩] ∧
    (handle ctxMsgFail bodyConv).response.status = 200 ∧
    "Failed to save message:" ∈ (handle ctxMsgFail bodyConv).logs := by
  have h := C10_conversation_message_insert ctxMsgFail bodyConv "u" "hi" 10 20 30
    (by decide) (by decide) (by decide) (by decide) (by decide) (by decide)
  exact ⟨h.1 "conv1" (by decide), h.2.2.1, h.2.2.2 "conv1" (by decide) (by decide)⟩

end AiChat
